import Mathlib

/-!
Shallow embedding of the Chromium installer orchestration logic in
`chrome/installer/setup/setup_main.cc` (functions `UnPackArchive`,
`RenameChromeExecutables`, `CheckPreInstallConditions`, `InstallChrome`).

External collaborators (the LZMA unpacker, the binary patcher, the
filesystem, the registry, `InstallOrUpdateChrome`) are modelled by
environment records whose fields give the outcome each call would return;
the embedded functions reproduce the source's control flow over those
outcomes and record the externally observable effects (work items built,
installer results written, launches, scheduled deletions) in result
records.
-/

namespace Setup

/-- Paths are modelled as the wide strings the source manipulates. -/
abbrev Path := String

/-- `file_util::AppendToPath`: append one path component. -/
def appendToPath (p : Path) (c : String) : Path := p ++ "\\" ++ c

/-- `installer::kChromeArchive` (the canonically named full archive). -/
def kChromeArchive : String := "chrome.7z"

/-- `installer::kChromeCompressedArchive`. -/
def kChromeCompressedArchive : String := "chrome.packed.7z"

/-- `installer_util::kChromeExe` (the live binary). -/
def kChromeExe : String := "chrome.exe"

/-- Modelled from the spec: `installer_util::kChromeOldExe`, the stale
previous-backup binary name; the constants file is not under src/. -/
def kChromeOldExe : String := "old_chrome.exe"

/-- `installer_util::kChromeNewExe`, the pending new binary; the source
comment names the file `new_chrome.exe`. -/
def kChromeNewExe : String := "new_chrome.exe"

/-- Modelled from the spec: `google_update::kRegOldVersionField`, the
"old version" registry value named `opv` in the source comment. -/
def kRegOldVersionField : String := "opv"

/-- Modelled from the spec: `google_update::kRegRenameCmdField`, the
"pending rename" registry value. -/
def kRegRenameCmdField : String := "cmd"

/-- `installer_util::InstallStatus`: the closed enumeration of terminal
outcomes.  The declaration (util_constants.h) is not under src/; the
constructor order is pinned by the source's COMPILE_ASSERT that
`SXS_OPTION_NOT_SUPPORTED == 33`, which fixes the sequential codes. -/
inductive InstallStatus where
  | FIRST_INSTALL_SUCCESS
  | INSTALL_REPAIRED
  | NEW_VERSION_UPDATED
  | EXISTING_VERSION_LAUNCHED
  | HIGHER_VERSION_EXISTS
  | USER_LEVEL_INSTALL_EXISTS
  | SYSTEM_LEVEL_INSTALL_EXISTS
  | INSTALL_FAILED
  | SETUP_PATCH_FAILED
  | OS_NOT_SUPPORTED
  | OS_ERROR
  | TEMP_DIR_FAILED
  | UNCOMPRESSION_FAILED
  | INVALID_ARCHIVE
  | INSUFFICIENT_RIGHTS
  | CHROME_NOT_INSTALLED
  | CHROME_RUNNING
  | UNINSTALL_CONFIRMED
  | UNINSTALL_DELETE_PROFILE
  | UNINSTALL_SUCCESSFUL
  | UNINSTALL_FAILED
  | UNINSTALL_CANCELLED
  | UNKNOWN_STATUS
  | RENAME_SUCCESSFUL
  | RENAME_FAILED
  | EULA_REJECTED
  | EULA_ACCEPTED
  | EULA_ACCEPTED_OPT_IN
  | INSTALL_DIR_IN_USE
  | UNINSTALL_REQUIRES_REBOOT
  | IN_USE_UPDATED
  | SAME_VERSION_REPAIR_FAILED
  | REENTRY_SYS_UPDATE
  | SXS_OPTION_NOT_SUPPORTED
  deriving DecidableEq, Repr

/-- The numeric code of an `InstallStatus` (its position in the C++
enumeration, which starts at 0 and increments). -/
def InstallStatus.toCode : InstallStatus → Nat
  | .FIRST_INSTALL_SUCCESS => 0
  | .INSTALL_REPAIRED => 1
  | .NEW_VERSION_UPDATED => 2
  | .EXISTING_VERSION_LAUNCHED => 3
  | .HIGHER_VERSION_EXISTS => 4
  | .USER_LEVEL_INSTALL_EXISTS => 5
  | .SYSTEM_LEVEL_INSTALL_EXISTS => 6
  | .INSTALL_FAILED => 7
  | .SETUP_PATCH_FAILED => 8
  | .OS_NOT_SUPPORTED => 9
  | .OS_ERROR => 10
  | .TEMP_DIR_FAILED => 11
  | .UNCOMPRESSION_FAILED => 12
  | .INVALID_ARCHIVE => 13
  | .INSUFFICIENT_RIGHTS => 14
  | .CHROME_NOT_INSTALLED => 15
  | .CHROME_RUNNING => 16
  | .UNINSTALL_CONFIRMED => 17
  | .UNINSTALL_DELETE_PROFILE => 18
  | .UNINSTALL_SUCCESSFUL => 19
  | .UNINSTALL_FAILED => 20
  | .UNINSTALL_CANCELLED => 21
  | .UNKNOWN_STATUS => 22
  | .RENAME_SUCCESSFUL => 23
  | .RENAME_FAILED => 24
  | .EULA_REJECTED => 25
  | .EULA_ACCEPTED => 26
  | .EULA_ACCEPTED_OPT_IN => 27
  | .INSTALL_DIR_IN_USE => 28
  | .UNINSTALL_REQUIRES_REBOOT => 29
  | .IN_USE_UPDATED => 30
  | .SAME_VERSION_REPAIR_FAILED => 31
  | .REENTRY_SYS_UPDATE => 32
  | .SXS_OPTION_NOT_SUPPORTED => 33

/-- `NO_ERROR`, the Windows success code. -/
def NO_ERROR : Nat := 0

/-- Modelled from the spec: `installer::Version` is not under src/; the
spec defines a version as an ordered tuple of non-negative integers. -/
abbrev Version := List Nat

/-- Whether every component of a version tail is zero (a tail of zeros is
what right-padding the shorter tuple with zeros compares equal to). -/
def allZero : List Nat → Bool
  | [] => true
  | x :: xs => decide (x = 0) && allZero xs

/-- Modelled from the spec: lexicographic comparison of the integer
components, the shorter tuple padded with zeros on the right. -/
def versionCompare : List Nat → List Nat → Ordering
  | [], [] => Ordering.eq
  | [], ys => if allZero ys then Ordering.eq else Ordering.lt
  | xs, [] => if allZero xs then Ordering.eq else Ordering.gt
  | x :: xs, y :: ys =>
      if x < y then Ordering.lt
      else if y < x then Ordering.gt
      else versionCompare xs ys

/-- `installer::Version::IsHigherThan`: strict greater-than. -/
def Version.isHigherThan (a b : Version) : Bool :=
  versionCompare a b == Ordering.gt

/-- Registry roots used by the installer. -/
inductive RegRoot where
  | hklm
  | hkcu
  deriving DecidableEq, Repr

/-- `HKEY reg_root = system_install ? HKEY_LOCAL_MACHINE : HKEY_CURRENT_USER`. -/
def regRootOf (systemInstall : Bool) : RegRoot :=
  if systemInstall then RegRoot.hklm else RegRoot.hkcu

/-- `WorkItem::CopyOverWriteOption`; only `IF_DIFFERENT` is used here. -/
inductive CopyOverWriteOption where
  | ALWAYS
  | NEVER
  | IF_DIFFERENT
  | NEW_NAME_IF_IN_USE
  deriving DecidableEq, Repr

/-- One reversible mutation appended to a `WorkItemList`. -/
inductive WorkItem where
  | deleteTree (path : Path)
  | copyTree (src dest tempDir : Path) (overwrite : CopyOverWriteOption)
  | deleteRegValue (root : RegRoot) (key valueName : String)
  deriving DecidableEq, Repr

/-- Environment for `RenameChromeExecutables`: outcomes of its external
calls. -/
structure RenameEnv where
  /-- `installer::GetChromeInstallPath(system_install)`. -/
  chromeInstallPath : Path
  /-- `BrowserDistribution::GetVersionKey()`. -/
  versionKey : String
  /-- Whether `file_util::CreateNewTempDirectory` succeeds. -/
  createTempDirOk : Bool
  /-- The temp directory produced when creation succeeds. -/
  tempPath : Path
  /-- Whether `WorkItemList::Do()` succeeds (all items execute). -/
  doSucceeds : Bool
  deriving Repr

/-- Observable outcome of `RenameChromeExecutables`. -/
structure RenameResult where
  status : InstallStatus
  /-- The work items added to the list, in order. -/
  workList : List WorkItem
  /-- Whether `WorkItemList::Do()` was invoked. -/
  executed : Bool
  /-- Whether `WorkItemList::Rollback()` was invoked. -/
  rolledBack : Bool
  /-- Whether `file_util::Delete(temp_path, true)` was invoked. -/
  tempDirDeleted : Bool
  deriving DecidableEq, Repr

/-- `RenameChromeExecutables` (setup_main.cc): move `new_chrome.exe` to
`chrome.exe` and delete the `opv` registry value in one transaction. -/
def RenameChromeExecutables (env : RenameEnv) (systemInstall : Bool) :
    RenameResult :=
  let chromePath := env.chromeInstallPath
  let chromeExe := appendToPath chromePath kChromeExe
  let chromeOldExe := appendToPath chromePath kChromeOldExe
  let chromeNewExe := appendToPath chromePath kChromeNewExe
  let listAfterFirstAdd : List WorkItem := [WorkItem.deleteTree chromeOldExe]
  if !env.createTempDirOk then
    { status := InstallStatus.RENAME_FAILED
      workList := listAfterFirstAdd
      executed := false
      rolledBack := false
      tempDirDeleted := false }
  else
    let root := regRootOf systemInstall
    let fullList := listAfterFirstAdd ++
      [ WorkItem.copyTree chromeNewExe chromeExe env.tempPath
          CopyOverWriteOption.IF_DIFFERENT,
        WorkItem.deleteRegValue root env.versionKey kRegOldVersionField,
        WorkItem.deleteTree chromeNewExe,
        WorkItem.deleteRegValue root env.versionKey kRegRenameCmdField ]
    if env.doSucceeds then
      { status := InstallStatus.RENAME_SUCCESSFUL
        workList := fullList
        executed := true
        rolledBack := false
        tempDirDeleted := true }
    else
      { status := InstallStatus.RENAME_FAILED
        workList := fullList
        executed := true
        rolledBack := true
        tempDirDeleted := true }

/-- Environment for `UnPackArchive`: outcomes of its external calls. -/
structure UnpackEnv where
  /-- Result of the first `LzmaUtil::UnPackArchive` (decompression of the
  payload into the temp directory); `0` is `NO_ERROR`. -/
  lzmaResult1 : Nat
  /-- `file_util::PathExists(temp_path\chrome.7z)` after decompression. -/
  chromeArchiveExists : Bool
  /-- Result of `setup_util::ApplyDiffPatch`; `0` is success. -/
  applyDiffPatchResult : Nat
  /-- Result of the final `LzmaUtil::UnPackArchive` of the full archive. -/
  lzmaResult2 : Nat
  deriving DecidableEq, Repr

/-- Observable outcome of `UnPackArchive`. -/
structure UnpackResult where
  /-- The DWORD the function returns; `0` is `NO_ERROR`. -/
  code : Nat
  /-- The by-reference `incremental_install` flag (initialized to false by
  the caller and assigned true only in the differential branch). -/
  incrementalInstall : Bool
  /-- Whether `setup_util::ApplyDiffPatch` was invoked. -/
  patchApplied : Bool
  /-- Whether the final unpack of the full archive was invoked. -/
  finalUnpackDone : Bool
  deriving DecidableEq, Repr

/-- `UnPackArchive` (setup_main.cc): decompress the payload; if the
canonical full archive `chrome.7z` is absent afterwards, treat the payload
as a differential patch against the installed version's stored archive,
then unpack the (possibly reconstructed) full archive. -/
def UnPackArchive (env : UnpackEnv) (installedVersion : Option Version) :
    UnpackResult :=
  if env.lzmaResult1 != NO_ERROR then
    { code := env.lzmaResult1
      incrementalInstall := false
      patchApplied := false
      finalUnpackDone := false }
  else if !env.chromeArchiveExists then
    if installedVersion.isNone then
      { code := InstallStatus.CHROME_NOT_INSTALLED.toCode
        incrementalInstall := true
        patchApplied := false
        finalUnpackDone := false }
    else if env.applyDiffPatchResult != 0 then
      { code := env.applyDiffPatchResult
        incrementalInstall := true
        patchApplied := true
        finalUnpackDone := false }
    else
      { code := env.lzmaResult2
        incrementalInstall := true
        patchApplied := true
        finalUnpackDone := true }
  else
    { code := env.lzmaResult2
      incrementalInstall := false
      patchApplied := false
      finalUnpackDone := true }

/-- Environment for `CheckPreInstallConditions`: outcomes of its external
calls. -/
structure PreflightEnv where
  /-- `InstallUtil::GetChromeVersion(!system_install)`: the version
  installed at the opposite privilege scope, if any. -/
  otherScopeVersion : Option Version
  /-- `installer::GetChromeInstallPath(!system_install)`; the empty string
  models failure to construct the path. -/
  otherScopeInstallPath : Path
  /-- `installer::GetChromeInstallPath(system_install)`: the target
  install directory. -/
  installPath : Path
  /-- `file_util::PathExists(install_path)`. -/
  installPathExists : Bool
  /-- Whether `file_util::Delete(install_path, true)` succeeds. -/
  installPathDeleteOk : Bool
  deriving DecidableEq, Repr

/-- Observable outcome of `CheckPreInstallConditions`. -/
structure PreflightResult where
  /-- The boolean return value (true means proceed with the install). -/
  proceed : Bool
  /-- The by-reference `status` out-parameter after the call. -/
  status : InstallStatus
  /-- Statuses passed to `InstallUtil::WriteInstallerResult`, in order. -/
  resultsWritten : List InstallStatus
  /-- Whether `base::LaunchApp` was invoked on the existing system-level
  `chrome.exe`. -/
  launchedExistingChrome : Bool
  /-- Whether the pre-existing target install directory was deleted. -/
  installDirDeleted : Bool
  deriving DecidableEq, Repr

/-- `CheckPreInstallConditions` (setup_main.cc): reject scope conflicts
(redirecting a first-time user-level install to an existing system-level
chrome), and for a first install make sure the target directory does not
exist or can be deleted. `statusIn` is the value of the by-reference
`status` argument on entry (left untouched on the proceed paths). -/
def CheckPreInstallConditions (env : PreflightEnv)
    (installedVersion : Option Version) (systemInstall : Bool)
    (statusIn : InstallStatus) : PreflightResult :=
  let isFirstInstall := installedVersion.isNone
  match env.otherScopeVersion with
  | some _ =>
    if !systemInstall && isFirstInstall then
      if env.otherScopeInstallPath.isEmpty then
        { proceed := false
          status := InstallStatus.OS_ERROR
          resultsWritten := [InstallStatus.OS_ERROR]
          launchedExistingChrome := false
          installDirDeleted := false }
      else
        { proceed := false
          status := InstallStatus.EXISTING_VERSION_LAUNCHED
          resultsWritten := [InstallStatus.EXISTING_VERSION_LAUNCHED]
          launchedExistingChrome := true
          installDirDeleted := false }
    else
      let st := if systemInstall then InstallStatus.USER_LEVEL_INSTALL_EXISTS
                else InstallStatus.SYSTEM_LEVEL_INSTALL_EXISTS
      { proceed := false
        status := st
        resultsWritten := [st]
        launchedExistingChrome := false
        installDirDeleted := false }
  | none =>
    if isFirstInstall && env.installPathExists then
      if env.installPathDeleteOk then
        { proceed := true
          status := statusIn
          resultsWritten := []
          launchedExistingChrome := false
          installDirDeleted := true }
      else
        { proceed := false
          status := InstallStatus.INSTALL_DIR_IN_USE
          resultsWritten := [InstallStatus.INSTALL_DIR_IN_USE]
          launchedExistingChrome := false
          installDirDeleted := false }
    else
      { proceed := true
        status := statusIn
        resultsWritten := []
        launchedExistingChrome := false
        installDirDeleted := false }

/-- Environment for `InstallChrome`: preference values, command-line
switches and outcomes of its external calls. -/
structure InstallEnv where
  /-- The `kSystemLevel` master preference (`system_level`). -/
  systemLevel : Bool
  /-- The `kDoNotRegisterForUpdateLaunch` master preference. -/
  doNotRegisterForUpdateLaunch : Bool
  /-- The `kDoNotLaunchChrome` master preference. -/
  doNotLaunchChrome : Bool
  /-- Whether the `--install-archive` switch is present. -/
  hasInstallArchiveSwitch : Bool
  /-- The `--install-archive` switch value. -/
  installArchiveSwitchValue : Path
  /-- Directory of `cmd_line.program()` (default archive location). -/
  programDir : Path
  /-- Whether the `--installer-data` switch is present. -/
  hasInstallerData : Bool
  /-- The `--installer-data` switch value (preferences-override file). -/
  installerDataPath : Path
  /-- Whether `file_util::CreateNewTempDirectory` succeeds. -/
  createTempDirOk : Bool
  /-- The temp directory produced when creation succeeds. -/
  tempPath : Path
  /-- Outcomes of the preflight's external calls. -/
  preflight : PreflightEnv
  /-- Outcomes of `UnPackArchive`'s external calls. -/
  unpack : UnpackEnv
  /-- `setup_util::GetVersionFromDir(src_path)`: the candidate version
  found in the unpacked payload, if any. -/
  versionFromDir : Option Version
  /-- Outcome of `installer::InstallOrUpdateChrome` (the mutate phase). -/
  installOrUpdateStatus : InstallStatus
  /-- `installer::GetChromeInstallPath(system_level)` in the
  result-message phase; the empty string models an OS call failure. -/
  chromeInstallPathAfter : Path
  /-- Whether `file_util::Delete(temp_path, true)` succeeds in cleanup. -/
  deleteTempOk : Bool
  /-- Whether `file_util::Delete(prefs_path, true)` succeeds in cleanup. -/
  deletePrefsOk : Bool
  deriving Repr

/-- The archive `InstallChrome` selects: the `--install-archive` value
when present, otherwise `chrome.packed.7z` next to the setup program. -/
def selectedArchive (env : InstallEnv) : Path :=
  if env.hasInstallArchiveSwitch then env.installArchiveSwitchValue
  else appendToPath env.programDir kChromeCompressedArchive

/-- Outcome of the phases of `InstallChrome` that precede cleanup. -/
structure CoreOutcome where
  status : InstallStatus
  /-- Statuses passed to `InstallUtil::WriteInstallerResult`, in order. -/
  resultsWritten : List InstallStatus
  /-- Whether `setup_util::GetVersionFromDir` was invoked (start of the
  version-compare phase). -/
  versionProbeReached : Bool
  /-- Whether `installer::InstallOrUpdateChrome` was invoked (the mutate
  phase, the only mutation of the install location in this function). -/
  mutateReached : Bool
  /-- Whether `installer::LaunchChrome` was invoked. -/
  launchedChrome : Bool
  /-- Whether the preflight launched the existing system-level chrome. -/
  launchedExistingChrome : Bool
  /-- Whether `installer_setup::RemoveLegacyRegistryKeys` was invoked. -/
  legacyKeysRemoved : Bool
  /-- Whether the preflight deleted a pre-existing target directory. -/
  installDirDeleted : Bool
  /-- Whether the temp directory was created, so the final cleanup block
  runs (the preflight-failure and temp-dir-failure paths return early). -/
  cleanupPhaseReached : Bool
  deriving DecidableEq, Repr

/-- The phases of `InstallChrome` up to (not including) cleanup:
preflight, temp-directory creation, unpack, version probe and compare,
mutate, result reporting and post-mutate actions. -/
def installCore (env : InstallEnv) (installedVersion : Option Version) :
    CoreOutcome :=
  let pf := CheckPreInstallConditions env.preflight installedVersion
      env.systemLevel InstallStatus.UNKNOWN_STATUS
  if !pf.proceed then
    { status := pf.status
      resultsWritten := pf.resultsWritten
      versionProbeReached := false
      mutateReached := false
      launchedChrome := false
      launchedExistingChrome := pf.launchedExistingChrome
      legacyKeysRemoved := false
      installDirDeleted := pf.installDirDeleted
      cleanupPhaseReached := false }
  else if !env.createTempDirOk then
    { status := InstallStatus.TEMP_DIR_FAILED
      resultsWritten := pf.resultsWritten ++ [InstallStatus.TEMP_DIR_FAILED]
      versionProbeReached := false
      mutateReached := false
      launchedChrome := false
      launchedExistingChrome := false
      legacyKeysRemoved := false
      installDirDeleted := pf.installDirDeleted
      cleanupPhaseReached := false }
  else
    let up := UnPackArchive env.unpack installedVersion
    if up.code != 0 then
      { status := InstallStatus.UNCOMPRESSION_FAILED
        resultsWritten :=
          pf.resultsWritten ++ [InstallStatus.UNCOMPRESSION_FAILED]
        versionProbeReached := false
        mutateReached := false
        launchedChrome := false
        launchedExistingChrome := false
        legacyKeysRemoved := false
        installDirDeleted := pf.installDirDeleted
        cleanupPhaseReached := true }
    else
      match env.versionFromDir with
      | none =>
        { status := InstallStatus.INVALID_ARCHIVE
          resultsWritten :=
            pf.resultsWritten ++ [InstallStatus.INVALID_ARCHIVE]
          versionProbeReached := true
          mutateReached := false
          launchedChrome := false
          launchedExistingChrome := false
          legacyKeysRemoved := false
          installDirDeleted := pf.installDirDeleted
          cleanupPhaseReached := true }
      | some installerVersion =>
        let installedIsHigher :=
          match installedVersion with
          | some iv => iv.isHigherThan installerVersion
          | none => false
        if installedIsHigher then
          { status := InstallStatus.HIGHER_VERSION_EXISTS
            resultsWritten :=
              pf.resultsWritten ++ [InstallStatus.HIGHER_VERSION_EXISTS]
            versionProbeReached := true
            mutateReached := false
            launchedChrome := false
            launchedExistingChrome := false
            legacyKeysRemoved := false
            installDirDeleted := pf.installDirDeleted
            cleanupPhaseReached := true }
        else
          let st0 := env.installOrUpdateStatus
          let st1 :=
            if st0 = InstallStatus.SAME_VERSION_REPAIR_FAILED then st0
            else if st0 != InstallStatus.INSTALL_FAILED then
              if env.chromeInstallPathAfter.isEmpty then
                InstallStatus.OS_ERROR
              else st0
            else st0
          let launch :=
            st1 = InstallStatus.FIRST_INSTALL_SUCCESS
              ∧ env.systemLevel = false ∧ env.doNotLaunchChrome = false
          let legacy :=
            st1 = InstallStatus.NEW_VERSION_UPDATED
              ∨ st1 = InstallStatus.IN_USE_UPDATED
          { status := st1
            resultsWritten := pf.resultsWritten ++ [st1]
            versionProbeReached := true
            mutateReached := true
            launchedChrome := decide launch
            launchedExistingChrome := false
            legacyKeysRemoved := decide legacy
            installDirDeleted := pf.installDirDeleted
            cleanupPhaseReached := true }

/-- Observable outcome of `InstallChrome`. -/
structure InstallResult where
  status : InstallStatus
  resultsWritten : List InstallStatus
  versionProbeReached : Bool
  mutateReached : Bool
  launchedChrome : Bool
  launchedExistingChrome : Bool
  legacyKeysRemoved : Bool
  installDirDeleted : Bool
  /-- Paths handed to `ScheduleDirectoryForDeletion`, in order. -/
  scheduledForDeletion : List Path
  deriving DecidableEq, Repr

/-- `InstallChrome` (setup_main.cc): the full install path — preflight,
temp directory, unpack, version compare, mutate, result reporting,
post-mutate actions, then cleanup of the temp directory and the
`--installer-data` file with scheduling on reboot if a delete fails. -/
def InstallChrome (env : InstallEnv) (installedVersion : Option Version) :
    InstallResult :=
  let core := installCore env installedVersion
  let scheduled :=
    if core.cleanupPhaseReached then
      let cleanupSuccess := env.deleteTempOk
          && (!env.hasInstallerData || env.deletePrefsOk)
      if cleanupSuccess then ([] : List Path)
      else
        env.tempPath ::
          (if env.hasInstallerData then [env.installerDataPath] else [])
    else []
  { status := core.status
    resultsWritten := core.resultsWritten
    versionProbeReached := core.versionProbeReached
    mutateReached := core.mutateReached
    launchedChrome := core.launchedChrome
    launchedExistingChrome := core.launchedExistingChrome
    legacyKeysRemoved := core.legacyKeysRemoved
    installDirDeleted := core.installDirDeleted
    scheduledForDeletion := scheduled }

/-- Modelled from the spec: the fixed set of outcomes
`installer::InstallOrUpdateChrome` (not under src/) can return — first
install success, new-version-updated, in-use-update, same-version repair
(the boundary sentence names a repair path), repair failure, or the
generic failure. -/
def mutateOutcome (s : InstallStatus) : Prop :=
  s = InstallStatus.FIRST_INSTALL_SUCCESS
  ∨ s = InstallStatus.INSTALL_REPAIRED
  ∨ s = InstallStatus.NEW_VERSION_UPDATED
  ∨ s = InstallStatus.IN_USE_UPDATED
  ∨ s = InstallStatus.SAME_VERSION_REPAIR_FAILED
  ∨ s = InstallStatus.INSTALL_FAILED

instance (s : InstallStatus) : Decidable (mutateOutcome s) := by
  unfold mutateOutcome; infer_instance

/- Concrete environments used by the witness theorems. -/

/-- A rename environment whose temp-directory creation succeeds. -/
def renameEnvOk : RenameEnv :=
  { chromeInstallPath := "C:\\Chrome"
    versionKey := "Software\\Update\\Clients\\App"
    createTempDirOk := true
    tempPath := "C:\\Temp\\chrome_1"
    doSucceeds := true }

/-- A rename environment whose temp-directory creation fails. -/
def renameEnvNoTemp : RenameEnv :=
  { chromeInstallPath := "C:\\Chrome"
    versionKey := "Software\\Update\\Clients\\App"
    createTempDirOk := false
    tempPath := ""
    doSucceeds := true }

/-- A preflight environment with no conflicting install and a free target
directory. -/
def pfEnvOk : PreflightEnv :=
  { otherScopeVersion := none
    otherScopeInstallPath := "C:\\SysChrome"
    installPath := "C:\\Chrome"
    installPathExists := false
    installPathDeleteOk := true }

/-- A preflight environment with a system-scope install present and a
constructible system-level install path. -/
def pfEnvRedirect : PreflightEnv :=
  { pfEnvOk with otherScopeVersion := some [9, 0] }

/-- A preflight environment with a system-scope install present and a
system-level install path that cannot be constructed. -/
def pfEnvRedirectNoPath : PreflightEnv :=
  { pfEnvRedirect with otherScopeInstallPath := "" }

/-- An unpack environment in which every step succeeds on a full
archive. -/
def unpackEnvOk : UnpackEnv :=
  { lzmaResult1 := 0
    chromeArchiveExists := true
    applyDiffPatchResult := 0
    lzmaResult2 := 0 }

/-- An unpack environment whose initial decompression fails. -/
def unpackEnvFail : UnpackEnv :=
  { unpackEnvOk with lzmaResult1 := 2 }

/-- An unpack environment in which decompression succeeds but the
canonical full archive is absent (a differential payload). -/
def unpackEnvDiff : UnpackEnv :=
  { unpackEnvOk with chromeArchiveExists := false }

/-- An install environment for a user-level first install that succeeds
end to end. -/
def installEnvBase : InstallEnv :=
  { systemLevel := false
    doNotRegisterForUpdateLaunch := false
    doNotLaunchChrome := false
    hasInstallArchiveSwitch := false
    installArchiveSwitchValue := ""
    programDir := "C:\\Setup"
    hasInstallerData := false
    installerDataPath := ""
    createTempDirOk := true
    tempPath := "C:\\Temp\\chrome_2"
    preflight := pfEnvOk
    unpack := unpackEnvOk
    versionFromDir := some [10, 0]
    installOrUpdateStatus := InstallStatus.FIRST_INSTALL_SUCCESS
    chromeInstallPathAfter := "C:\\Chrome"
    deleteTempOk := true
    deletePrefsOk := true }

/-- An install environment whose initial decompression fails. -/
def installEnvUnpackFail : InstallEnv :=
  { installEnvBase with unpack := unpackEnvFail }

/-- An install environment whose unpacked payload has no parseable
version. -/
def installEnvNoVersion : InstallEnv :=
  { installEnvBase with versionFromDir := none }

/-- An install environment whose temp directory cannot be deleted during
cleanup. -/
def installEnvLockedTemp : InstallEnv :=
  { installEnvBase with deleteTempOk := false }

/-- A system-level first install that succeeds end to end. -/
def installEnvSystem : InstallEnv :=
  { installEnvBase with systemLevel := true }

/-- A first-install preflight environment whose target directory exists
and can be deleted. -/
def pfEnvDirDeletable : PreflightEnv :=
  { pfEnvOk with installPathExists := true }

/-- A first-install preflight environment whose target directory exists
and is locked. -/
def pfEnvDirInUse : PreflightEnv :=
  { pfEnvOk with installPathExists := true, installPathDeleteOk := false }

/- Helper lemmas shared by the claim theorems. -/

theorem versionCompare_self (v : List Nat) : versionCompare v v = Ordering.eq := by
  induction v with
  | nil => rfl
  | cons x xs ih => simp [versionCompare, ih]

theorem isHigherThan_self (v : Version) : v.isHigherThan v = false := by
  unfold Version.isHigherThan
  rw [versionCompare_self]
  rfl

theorem preflight_proceed_writes (e : PreflightEnv) (i : Option Version)
    (s : Bool) (st : InstallStatus)
    (h : (CheckPreInstallConditions e i s st).proceed = true) :
    (CheckPreInstallConditions e i s st).resultsWritten = [] := by
  unfold CheckPreInstallConditions at h ⊢
  cases hov : e.otherScopeVersion <;>
    rcases i with _ | iv <;>
    cases s <;>
    cases hpe : e.installPathExists <;>
    cases hpd : e.installPathDeleteOk <;>
    cases hoe : e.otherScopeInstallPath.isEmpty <;>
    simp_all

theorem preflight_fail_status (e : PreflightEnv) (i : Option Version)
    (s : Bool) (st : InstallStatus)
    (h : (CheckPreInstallConditions e i s st).proceed = false) :
    (CheckPreInstallConditions e i s st).status ≠
      InstallStatus.FIRST_INSTALL_SUCCESS := by
  unfold CheckPreInstallConditions at h ⊢
  cases hov : e.otherScopeVersion <;>
    rcases i with _ | iv <;>
    cases s <;>
    cases hpe : e.installPathExists <;>
    cases hpd : e.installPathDeleteOk <;>
    cases hoe : e.otherScopeInstallPath.isEmpty <;>
    simp_all

theorem installCore_delete_irrel (env : InstallEnv) (i : Option Version)
    (b1 b2 : Bool) :
    installCore { env with deleteTempOk := b1, deletePrefsOk := b2 } i =
      installCore env i := by
  cases env
  rfl

theorem installCore_cleanup_reached (env : InstallEnv) (i : Option Version)
    (hpf : (CheckPreInstallConditions env.preflight i env.systemLevel
        InstallStatus.UNKNOWN_STATUS).proceed = true)
    (htmp : env.createTempDirOk = true) :
    (installCore env i).cleanupPhaseReached = true := by
  simp only [installCore, hpf, htmp, Bool.not_true, Bool.false_eq_true,
    if_false]
  split
  · rfl
  · split
    · rfl
    · split
      · rfl
      · rfl

theorem installCore_unpack_fail (env : InstallEnv) (i : Option Version)
    (hpf : (CheckPreInstallConditions env.preflight i env.systemLevel
        InstallStatus.UNKNOWN_STATUS).proceed = true)
    (htmp : env.createTempDirOk = true)
    (hup : (UnPackArchive env.unpack i).code ≠ 0) :
    (installCore env i).status = InstallStatus.UNCOMPRESSION_FAILED
    ∧ (installCore env i).resultsWritten =
        [InstallStatus.UNCOMPRESSION_FAILED]
    ∧ (installCore env i).versionProbeReached = false
    ∧ (installCore env i).mutateReached = false := by
  have hw := preflight_proceed_writes env.preflight i env.systemLevel
    InstallStatus.UNKNOWN_STATUS hpf
  simp [installCore, hpf, htmp, hw, hup]

theorem installChrome_status (env : InstallEnv) (i : Option Version) :
    (InstallChrome env i).status = (installCore env i).status := rfl

theorem installChrome_results (env : InstallEnv) (i : Option Version) :
    (InstallChrome env i).resultsWritten =
      (installCore env i).resultsWritten := rfl

theorem installChrome_probe (env : InstallEnv) (i : Option Version) :
    (InstallChrome env i).versionProbeReached =
      (installCore env i).versionProbeReached := rfl

theorem installChrome_mutate (env : InstallEnv) (i : Option Version) :
    (InstallChrome env i).mutateReached =
      (installCore env i).mutateReached := rfl

theorem installChrome_launched (env : InstallEnv) (i : Option Version) :
    (InstallChrome env i).launchedChrome =
      (installCore env i).launchedChrome := rfl

/- Claim theorems. -/

/-- C1: when its temp directory can be created, `RenameChromeExecutables`
builds a single work list holding, in order, (1) delete the stale backup
binary, (2) copy the pending new binary over the live binary only if
content differs, (3) delete the old-version registry value, (4) delete
the pending new binary, (5) delete the pending-rename registry value;
if execution fails the list is rolled back and RENAME_FAILED returned
(RENAME_SUCCESSFUL otherwise), and the temp directory is deleted on both
paths. -/
theorem rename_transaction_spec (env : RenameEnv) (sys : Bool)
    (h : env.createTempDirOk = true) :
    (RenameChromeExecutables env sys).workList =
      [ WorkItem.deleteTree (appendToPath env.chromeInstallPath kChromeOldExe),
        WorkItem.copyTree (appendToPath env.chromeInstallPath kChromeNewExe)
          (appendToPath env.chromeInstallPath kChromeExe) env.tempPath
          CopyOverWriteOption.IF_DIFFERENT,
        WorkItem.deleteRegValue (regRootOf sys) env.versionKey
          kRegOldVersionField,
        WorkItem.deleteTree (appendToPath env.chromeInstallPath kChromeNewExe),
        WorkItem.deleteRegValue (regRootOf sys) env.versionKey
          kRegRenameCmdField ]
    ∧ (RenameChromeExecutables env sys).executed = true
    ∧ ((RenameChromeExecutables env sys).status =
        if env.doSucceeds then InstallStatus.RENAME_SUCCESSFUL
        else InstallStatus.RENAME_FAILED)
    ∧ (RenameChromeExecutables env sys).rolledBack = !env.doSucceeds
    ∧ (RenameChromeExecutables env sys).tempDirDeleted = true := by
  unfold RenameChromeExecutables
  rw [h]
  cases hd : env.doSucceeds <;> simp [hd]

/-- C1 witness: the rename transaction at a concrete environment whose
temp directory creation and execution both succeed. -/
theorem rename_transaction_spec_witness :
    (RenameChromeExecutables renameEnvOk false).status =
      InstallStatus.RENAME_SUCCESSFUL
    ∧ (RenameChromeExecutables renameEnvOk false).executed = true
    ∧ (RenameChromeExecutables renameEnvOk false).rolledBack = false
    ∧ (RenameChromeExecutables renameEnvOk false).tempDirDeleted = true := by
  have h := rename_transaction_spec renameEnvOk false rfl
  refine ⟨?_, h.2.1, ?_, h.2.2.2.2⟩
  · rw [h.2.2.1]; rfl
  · rw [h.2.2.2.1]; rfl

/-- C10 counterexample: when temp-directory creation fails the function
does return RENAME_FAILED with the list never executed, but one work item
(the deletion of the stale backup binary) has already been added to the
work list at that point, refuting "before any work item is added". -/
theorem rename_tempfail_counterexample :
    (RenameChromeExecutables renameEnvNoTemp false).status =
      InstallStatus.RENAME_FAILED
    ∧ (RenameChromeExecutables renameEnvNoTemp false).workList ≠ [] := by
  refine ⟨rfl, ?_⟩
  intro hempty
  simp [RenameChromeExecutables, renameEnvNoTemp] at hempty

/-- C10 amended: if `RenameChromeExecutables` fails to create its
temporary directory it returns RENAME_FAILED; at that point the work list
already holds exactly one item (the deletion of the stale backup binary)
but no further items are added, the list is never executed nor rolled
back, and the temp-directory delete is not attempted, so no file or
registry mutation of the install occurs. -/
theorem rename_tempfail_spec (env : RenameEnv) (sys : Bool)
    (h : env.createTempDirOk = false) :
    (RenameChromeExecutables env sys).status = InstallStatus.RENAME_FAILED
    ∧ (RenameChromeExecutables env sys).workList =
        [WorkItem.deleteTree (appendToPath env.chromeInstallPath kChromeOldExe)]
    ∧ (RenameChromeExecutables env sys).executed = false
    ∧ (RenameChromeExecutables env sys).rolledBack = false
    ∧ (RenameChromeExecutables env sys).tempDirDeleted = false := by
  unfold RenameChromeExecutables
  rw [h]
  simp

/-- C10 witness: the temp-creation-failure path at a concrete
environment. -/
theorem rename_tempfail_spec_witness :
    (RenameChromeExecutables renameEnvNoTemp true).status =
      InstallStatus.RENAME_FAILED
    ∧ (RenameChromeExecutables renameEnvNoTemp true).executed = false
    ∧ (RenameChromeExecutables renameEnvNoTemp true).rolledBack = false := by
  have h := rename_tempfail_spec renameEnvNoTemp true rfl
  exact ⟨h.1, h.2.2.1, h.2.2.2.1⟩

/-- C2: after a successful initial decompression the payload is
classified differential exactly when the canonical full archive is
absent from the temp directory (no other signal); in that case, with no
installed version, `UnPackArchive` returns CHROME_NOT_INSTALLED without
invoking the patcher, and since that code is non-zero the surrounding
install run terminates with the uncompression-failure status rather than
crashing or silently succeeding. -/
theorem unpack_differential_spec (uenv : UnpackEnv) (inst : Option Version)
    (ienv : InstallEnv) :
    ((UnPackArchive uenv inst).incrementalInstall
        = (uenv.lzmaResult1 == 0 && !uenv.chromeArchiveExists))
    ∧ (uenv.lzmaResult1 = 0 → uenv.chromeArchiveExists = false →
        (UnPackArchive uenv none).code =
          InstallStatus.CHROME_NOT_INSTALLED.toCode
        ∧ (UnPackArchive uenv none).patchApplied = false
        ∧ (UnPackArchive uenv none).code ≠ NO_ERROR)
    ∧ ((CheckPreInstallConditions ienv.preflight none ienv.systemLevel
          InstallStatus.UNKNOWN_STATUS).proceed = true →
        ienv.createTempDirOk = true →
        ienv.unpack.lzmaResult1 = 0 →
        ienv.unpack.chromeArchiveExists = false →
        (InstallChrome ienv none).status =
          InstallStatus.UNCOMPRESSION_FAILED) := by
  refine ⟨?_, ?_, ?_⟩
  · by_cases h1 : uenv.lzmaResult1 = 0 <;>
      cases h2 : uenv.chromeArchiveExists <;>
      cases inst <;>
      by_cases h3 : uenv.applyDiffPatchResult = 0 <;>
      simp [UnPackArchive, NO_ERROR, h1, h2, h3]
  · intro h1 h2
    simp [UnPackArchive, NO_ERROR, h1, h2, InstallStatus.toCode]
  · intro hpf htmp h1 h2
    have hup : (UnPackArchive ienv.unpack none).code ≠ 0 := by
      simp [UnPackArchive, NO_ERROR, h1, h2, InstallStatus.toCode]
    rw [installChrome_status]
    exact (installCore_unpack_fail ienv none hpf htmp hup).1

/-- C2 witness: a differential payload with no installed version, at a
concrete environment. -/
theorem unpack_differential_spec_witness :
    (UnPackArchive unpackEnvDiff none).incrementalInstall =
      (unpackEnvDiff.lzmaResult1 == 0 && !unpackEnvDiff.chromeArchiveExists)
    ∧ (UnPackArchive unpackEnvDiff none).code =
        InstallStatus.CHROME_NOT_INSTALLED.toCode
    ∧ (UnPackArchive unpackEnvDiff none).patchApplied = false
    ∧ (UnPackArchive unpackEnvDiff none).code ≠ NO_ERROR := by
  have h := unpack_differential_spec unpackEnvDiff none installEnvBase
  exact ⟨h.1, (h.2.1 rfl rfl).1, (h.2.1 rfl rfl).2.1, (h.2.1 rfl rfl).2.2⟩

/-- C3: when the preflight passed and the temp directory was created, a
non-zero return from `UnPackArchive` makes the run terminate with status
UNCOMPRESSION_FAILED, writing exactly one installer result, without
reaching the version-probe or mutate phases. -/
theorem unpack_failure_terminal (env : InstallEnv) (i : Option Version)
    (hpf : (CheckPreInstallConditions env.preflight i env.systemLevel
        InstallStatus.UNKNOWN_STATUS).proceed = true)
    (htmp : env.createTempDirOk = true)
    (hup : (UnPackArchive env.unpack i).code ≠ 0) :
    (InstallChrome env i).status = InstallStatus.UNCOMPRESSION_FAILED
    ∧ (InstallChrome env i).resultsWritten =
        [InstallStatus.UNCOMPRESSION_FAILED]
    ∧ (InstallChrome env i).versionProbeReached = false
    ∧ (InstallChrome env i).mutateReached = false := by
  have h := installCore_unpack_fail env i hpf htmp hup
  rw [installChrome_status, installChrome_results, installChrome_probe,
    installChrome_mutate]
  exact h

/-- C3 witness: a failed decompression at a concrete environment. -/
theorem unpack_failure_terminal_witness :
    (InstallChrome installEnvUnpackFail none).status =
      InstallStatus.UNCOMPRESSION_FAILED
    ∧ (InstallChrome installEnvUnpackFail none).resultsWritten =
        [InstallStatus.UNCOMPRESSION_FAILED]
    ∧ (InstallChrome installEnvUnpackFail none).versionProbeReached = false
    ∧ (InstallChrome installEnvUnpackFail none).mutateReached = false :=
  unpack_failure_terminal installEnvUnpackFail none rfl rfl (by decide)

/-- C7: when the preflight passed, the temp directory was created and
unpacking succeeded, a payload with no parseable version terminates the
run with status INVALID_ARCHIVE, one installer result, and the mutate
phase is never reached. -/
theorem invalid_archive_aborts (env : InstallEnv) (i : Option Version)
    (hpf : (CheckPreInstallConditions env.preflight i env.systemLevel
        InstallStatus.UNKNOWN_STATUS).proceed = true)
    (htmp : env.createTempDirOk = true)
    (hup : (UnPackArchive env.unpack i).code = 0)
    (hvd : env.versionFromDir = none) :
    (InstallChrome env i).status = InstallStatus.INVALID_ARCHIVE
    ∧ (InstallChrome env i).mutateReached = false
    ∧ (InstallChrome env i).resultsWritten =
        [InstallStatus.INVALID_ARCHIVE] := by
  have hw := preflight_proceed_writes env.preflight i env.systemLevel
    InstallStatus.UNKNOWN_STATUS hpf
  rw [installChrome_status, installChrome_mutate, installChrome_results]
  simp [installCore, hpf, htmp, hup, hvd, hw]

/-- C7 witness: a payload without a parseable version at a concrete
environment. -/
theorem invalid_archive_aborts_witness :
    (InstallChrome installEnvNoVersion none).status =
      InstallStatus.INVALID_ARCHIVE
    ∧ (InstallChrome installEnvNoVersion none).mutateReached = false
    ∧ (InstallChrome installEnvNoVersion none).resultsWritten =
        [InstallStatus.INVALID_ARCHIVE] :=
  invalid_archive_aborts installEnvNoVersion none rfl rfl rfl rfl

/-- C4: with preflight passed, temp directory created, unpack succeeded
and a candidate version found, an installed version strictly higher than
the candidate aborts the run with HIGHER_VERSION_EXISTS without reaching
the mutate phase, while an installed version equal to the candidate does
not produce HIGHER_VERSION_EXISTS and does reach the mutate (repair)
phase. -/
theorem version_gate_spec (env : InstallEnv) (iv cand : Version)
    (hpf : (CheckPreInstallConditions env.preflight (some iv)
        env.systemLevel InstallStatus.UNKNOWN_STATUS).proceed = true)
    (htmp : env.createTempDirOk = true)
    (hup : (UnPackArchive env.unpack (some iv)).code = 0)
    (hvd : env.versionFromDir = some cand)
    (hmo : mutateOutcome env.installOrUpdateStatus) :
    (iv.isHigherThan cand = true →
      (InstallChrome env (some iv)).status =
        InstallStatus.HIGHER_VERSION_EXISTS
      ∧ (InstallChrome env (some iv)).mutateReached = false)
    ∧ (iv = cand →
      (InstallChrome env (some iv)).status ≠
        InstallStatus.HIGHER_VERSION_EXISTS
      ∧ (InstallChrome env (some iv)).mutateReached = true) := by
  have hw := preflight_proceed_writes env.preflight (some iv) env.systemLevel
    InstallStatus.UNKNOWN_STATUS hpf
  constructor
  · intro hh
    rw [installChrome_status, installChrome_mutate]
    simp [installCore, hpf, htmp, hup, hvd, hh]
  · intro he
    subst he
    rw [installChrome_status, installChrome_mutate]
    simp only [installCore, hpf, htmp, hup, hvd, isHigherThan_self]
    rcases hmo with h | h | h | h | h | h <;>
      rw [h] <;> simp <;> split <;> simp

/-- C4 witness: a downgrade attempt (installed 11.0, candidate 10.0) and
an equal-version repair (installed 10.0, candidate 10.0) at concrete
environments. -/
theorem version_gate_spec_witness :
    ((InstallChrome installEnvBase (some [11, 0])).status =
        InstallStatus.HIGHER_VERSION_EXISTS
      ∧ (InstallChrome installEnvBase (some [11, 0])).mutateReached = false)
    ∧ ((InstallChrome installEnvBase (some [10, 0])).status ≠
        InstallStatus.HIGHER_VERSION_EXISTS
      ∧ (InstallChrome installEnvBase (some [10, 0])).mutateReached = true) :=
  ⟨(version_gate_spec installEnvBase [11, 0] [10, 0] rfl rfl rfl rfl
      (Or.inl rfl)).1 (by decide),
   (version_gate_spec installEnvBase [10, 0] [10, 0] rfl rfl rfl rfl
      (Or.inl rfl)).2 rfl⟩

/-- C5 counterexample: a first-time user-scope install with a
system-scope installation present, where the system-level install path
cannot be constructed — the preflight reports the error status OS_ERROR
(not EXISTING_VERSION_LAUNCHED) and launches nothing, refuting the
claim's "preflight does not report an error status". -/
theorem preflight_redirect_counterexample :
    (CheckPreInstallConditions pfEnvRedirectNoPath none false
        InstallStatus.UNKNOWN_STATUS).status = InstallStatus.OS_ERROR
    ∧ (CheckPreInstallConditions pfEnvRedirectNoPath none false
        InstallStatus.UNKNOWN_STATUS).status ≠
        InstallStatus.EXISTING_VERSION_LAUNCHED
    ∧ (CheckPreInstallConditions pfEnvRedirectNoPath none false
        InstallStatus.UNKNOWN_STATUS).launchedExistingChrome = false := by
  refine ⟨rfl, ?_, rfl⟩
  decide

/-- C5 amended: with an installation at the opposite scope, a first-time
user-scope install whose system-level install path can be constructed is
redirected — status EXISTING_VERSION_LAUNCHED, the existing chrome is
launched, no file is modified and the run aborts; if the path cannot be
constructed the preflight reports OS_ERROR and aborts without launching;
in every other case it reports the scope-conflict status
(USER_LEVEL_INSTALL_EXISTS for a system install, otherwise
SYSTEM_LEVEL_INSTALL_EXISTS) and aborts without launching. -/
theorem preflight_opposite_scope_spec (e : PreflightEnv)
    (i : Option Version) (s : Bool) (st : InstallStatus) (v : Version)
    (hother : e.otherScopeVersion = some v) :
    (s = false → i = none → e.otherScopeInstallPath.isEmpty = false →
      (CheckPreInstallConditions e i s st).status =
        InstallStatus.EXISTING_VERSION_LAUNCHED
      ∧ (CheckPreInstallConditions e i s st).launchedExistingChrome = true
      ∧ (CheckPreInstallConditions e i s st).proceed = false
      ∧ (CheckPreInstallConditions e i s st).installDirDeleted = false
      ∧ (CheckPreInstallConditions e i s st).resultsWritten =
          [InstallStatus.EXISTING_VERSION_LAUNCHED])
    ∧ (s = false → i = none → e.otherScopeInstallPath.isEmpty = true →
      (CheckPreInstallConditions e i s st).status = InstallStatus.OS_ERROR
      ∧ (CheckPreInstallConditions e i s st).launchedExistingChrome = false
      ∧ (CheckPreInstallConditions e i s st).proceed = false)
    ∧ (s = true ∨ i ≠ none →
      (CheckPreInstallConditions e i s st).status =
        (if s then InstallStatus.USER_LEVEL_INSTALL_EXISTS
         else InstallStatus.SYSTEM_LEVEL_INSTALL_EXISTS)
      ∧ (CheckPreInstallConditions e i s st).launchedExistingChrome = false
      ∧ (CheckPreInstallConditions e i s st).proceed = false) := by
  refine ⟨?_, ?_, ?_⟩
  · intro hs hi hp
    subst hs; subst hi
    simp [CheckPreInstallConditions, hother, hp]
  · intro hs hi hp
    subst hs; subst hi
    simp [CheckPreInstallConditions, hother, hp]
  · intro hd
    rcases hd with hs | hi
    · subst hs
      simp [CheckPreInstallConditions, hother]
    · rcases i with _ | iv
      · exact absurd rfl hi
      · cases s <;> simp [CheckPreInstallConditions, hother]

/-- C5 witness: the redirect at a concrete environment with a
constructible system-level install path. -/
theorem preflight_opposite_scope_spec_witness :
    (CheckPreInstallConditions pfEnvRedirect none false
        InstallStatus.UNKNOWN_STATUS).status =
      InstallStatus.EXISTING_VERSION_LAUNCHED
    ∧ (CheckPreInstallConditions pfEnvRedirect none false
        InstallStatus.UNKNOWN_STATUS).launchedExistingChrome = true
    ∧ (CheckPreInstallConditions pfEnvRedirect none false
        InstallStatus.UNKNOWN_STATUS).proceed = false
    ∧ (CheckPreInstallConditions pfEnvRedirect none false
        InstallStatus.UNKNOWN_STATUS).installDirDeleted = false := by
  have h := (preflight_opposite_scope_spec pfEnvRedirect none false
    InstallStatus.UNKNOWN_STATUS [9, 0] rfl).1 rfl rfl (by decide)
  exact ⟨h.1, h.2.1, h.2.2.1, h.2.2.2.1⟩

/-- C8: on a genuine first install (no version in this scope, none at the
opposite scope) with a directory already at the target install path, the
directory is deleted before proceeding; if that deletion fails the
preflight reports INSTALL_DIR_IN_USE and returns false. -/
theorem first_install_dir_spec (e : PreflightEnv) (s : Bool)
    (st : InstallStatus)
    (hother : e.otherScopeVersion = none)
    (hexists : e.installPathExists = true) :
    (e.installPathDeleteOk = true →
      (CheckPreInstallConditions e none s st).proceed = true
      ∧ (CheckPreInstallConditions e none s st).installDirDeleted = true
      ∧ (CheckPreInstallConditions e none s st).resultsWritten = [])
    ∧ (e.installPathDeleteOk = false →
      (CheckPreInstallConditions e none s st).proceed = false
      ∧ (CheckPreInstallConditions e none s st).status =
          InstallStatus.INSTALL_DIR_IN_USE
      ∧ (CheckPreInstallConditions e none s st).resultsWritten =
          [InstallStatus.INSTALL_DIR_IN_USE]
      ∧ (CheckPreInstallConditions e none s st).installDirDeleted
          = false) := by
  constructor
  · intro hd
    simp [CheckPreInstallConditions, hother, hexists, hd]
  · intro hd
    simp [CheckPreInstallConditions, hother, hexists, hd]

/-- C8 witness: a deletable and a locked pre-existing target directory at
concrete environments. -/
theorem first_install_dir_spec_witness :
    ((CheckPreInstallConditions pfEnvDirDeletable none false
        InstallStatus.UNKNOWN_STATUS).proceed = true
      ∧ (CheckPreInstallConditions pfEnvDirDeletable none false
          InstallStatus.UNKNOWN_STATUS).installDirDeleted = true)
    ∧ ((CheckPreInstallConditions pfEnvDirInUse none false
        InstallStatus.UNKNOWN_STATUS).proceed = false
      ∧ (CheckPreInstallConditions pfEnvDirInUse none false
          InstallStatus.UNKNOWN_STATUS).status =
          InstallStatus.INSTALL_DIR_IN_USE) := by
  have h1 := (first_install_dir_spec pfEnvDirDeletable false
    InstallStatus.UNKNOWN_STATUS rfl rfl).1 rfl
  have h2 := (first_install_dir_spec pfEnvDirInUse false
    InstallStatus.UNKNOWN_STATUS rfl rfl).2 rfl
  exact ⟨⟨h1.1, h1.2.1⟩, ⟨h2.1, h2.2.1⟩⟩

/-- C6: once the run reaches cleanup (preflight passed and the temp
directory was created), the outcome of the temp-directory and
preferences-file deletions never changes the returned status, and a
failed deletion hands the undeletable path to
`ScheduleDirectoryForDeletion`. -/
theorem cleanup_preserves_status (env : InstallEnv) (i : Option Version)
    (hpf : (CheckPreInstallConditions env.preflight i env.systemLevel
        InstallStatus.UNKNOWN_STATUS).proceed = true)
    (htmp : env.createTempDirOk = true) :
    (∀ b1 b2 : Bool,
      (InstallChrome { env with deleteTempOk := b1, deletePrefsOk := b2 }
          i).status = (InstallChrome env i).status)
    ∧ (env.deleteTempOk = false →
        env.tempPath ∈ (InstallChrome env i).scheduledForDeletion)
    ∧ (env.hasInstallerData = true → env.deletePrefsOk = false →
        env.installerDataPath ∈
          (InstallChrome env i).scheduledForDeletion) := by
  have hcr := installCore_cleanup_reached env i hpf htmp
  refine ⟨?_, ?_, ?_⟩
  · intro b1 b2
    rw [installChrome_status, installChrome_status,
      installCore_delete_irrel]
  · intro hdt
    simp [InstallChrome, hcr, hdt]
  · intro hid hdp
    simp [InstallChrome, hcr, hid, hdp]

/-- C6 witness: a locked temp directory at a concrete environment — the
status is the same as with a deletable temp directory and the temp path
is scheduled for deletion on reboot. -/
theorem cleanup_preserves_status_witness :
    (InstallChrome { installEnvLockedTemp with deleteTempOk := true, deletePrefsOk := true } none).status =
      (InstallChrome installEnvLockedTemp none).status
    ∧ installEnvLockedTemp.tempPath ∈
        (InstallChrome installEnvLockedTemp none).scheduledForDeletion := by
  have h := cleanup_preserves_status installEnvLockedTemp none rfl rfl
  exact ⟨h.1 true true, h.2.1 rfl⟩

/-- C9: `installer::LaunchChrome` is invoked exactly when the decided
status is FIRST_INSTALL_SUCCESS, the install is user-scope, and the
do-not-launch preference is unset; in particular no system-level run ever
launches Chrome this way. -/
theorem first_install_launch_gate (env : InstallEnv) (i : Option Version) :
    ((InstallChrome env i).launchedChrome = true ↔
      ((InstallChrome env i).status = InstallStatus.FIRST_INSTALL_SUCCESS
        ∧ env.systemLevel = false ∧ env.doNotLaunchChrome = false))
    ∧ (env.systemLevel = true →
        (InstallChrome env i).launchedChrome = false) := by
  rw [installChrome_status, installChrome_launched]
  by_cases hpf : (CheckPreInstallConditions env.preflight i env.systemLevel
      InstallStatus.UNKNOWN_STATUS).proceed = true
  case neg =>
    have hpf2 : (CheckPreInstallConditions env.preflight i env.systemLevel
        InstallStatus.UNKNOWN_STATUS).proceed = false := by
      simpa using hpf
    have hne := preflight_fail_status env.preflight i env.systemLevel
      InstallStatus.UNKNOWN_STATUS hpf2
    simp [installCore, hpf2, hne]
  case pos =>
    cases htmp : env.createTempDirOk
    · simp [installCore, hpf, htmp]
    · simp only [installCore, hpf, htmp, Bool.not_true, Bool.false_eq_true,
        if_false]
      split
      · simp
      · split
        · simp
        · split
          · simp
          · constructor
            · simp [and_assoc]
            · intro hs
              simp [hs]

/-- C9 witness: a successful system-level first install does not launch
Chrome, while the matching user-level first install does. -/
theorem first_install_launch_gate_witness :
    (InstallChrome installEnvSystem none).launchedChrome = false
    ∧ (InstallChrome installEnvBase none).launchedChrome = true :=
  ⟨(first_install_launch_gate installEnvSystem none).2 rfl,
   (first_install_launch_gate installEnvBase none).1.mpr
     ⟨by decide, rfl, rfl⟩⟩

end Setup
